import Mathlib

/-!
# Verification of konachan-popular (src/src/lib.rs, src/src/main.rs)

Shallow embedding of the konachan-popular Telegram bot.  Byte vectors
(`Vec<u8>`) are `List Nat`; fallible operations return `Except String`
(the `String` standing for the error's display message).  The external
`image` crate (decode, Lanczos3 resize, PNG encode) is abstracted as an
`ImageOps` record of functions, so every theorem quantifies over the
library's possible behaviours; the floating-point initial-dimension guess
of lib.rs lines 141-163 is likewise abstracted by quantifying over the
target dimensions handed to the shrink loop.  Network and Telegram calls
are oracles (functions from attempt number / payload to a result), and
log output is represented by explicit event traces where a claim needs it.
-/

namespace KonachanPopular

/-- `Vec<u8>`: a byte vector, one `Nat` per byte. -/
abbrev Bytes := List Nat

/-- `const MAX_IMAGE_SIZE: usize = 10 * 1024_usize.pow(2)` (lib.rs:39). -/
def MAX_IMAGE_SIZE : Nat := 10 * 1024 ^ 2

/-- `struct Post` (lib.rs:41-47): the fields deserialized from the
Konachan popular-posts JSON. -/
structure Post where
  id : Nat
  jpeg_url : String
  jpeg_width : Nat
  jpeg_height : Nat
deriving DecidableEq

/-- Abstract interface to the external `image` crate, over an abstract
image type `Img`: `image::load_from_memory` (decode, may fail),
`DynamicImage::resize` with the Lanczos3 filter, and
`DynamicImage::write_to` targeting PNG followed by reading the cursor
back (may fail).  The theorems below quantify over every `ImageOps`, so
nothing is assumed about the crate beyond its signatures. -/
structure ImageOps (Img : Type) where
  load_from_memory : Bytes → Except String Img
  resize : Img → Nat → Nat → Img
  write_to_png : Img → Except String Bytes

/-- One shrink step of lib.rs:196-197, `(w as f32 * 0.8) as u32`.
`f32` has `0.8 = 13421773 / 2^24`; for every dimension in the loop's
range (the pre-loop constraint of lib.rs:152-163 keeps
`target_width + target_height ≤ 10000`) the rounded product truncates to
exactly `⌊4 * w / 5⌋`, which is the definition used here. -/
def shrinkDim (w : Nat) : Nat := w * 4 / 5

/-- The `loop` of lib.rs:168-198: resize the current image to the target
dimensions, encode to PNG, return the bytes if they are strictly under
`MAX_IMAGE_SIZE`, otherwise shrink both target dimensions by the 0.8
factor and repeat.  The source loop has no iteration cap, so the
embedding takes explicit `fuel`; `none` means the loop was still running
after `fuel` iterations. -/
def resizeLoop {Img : Type} (ops : ImageOps Img) :
    Nat → Img → Nat → Nat → Option (Except String Bytes)
  | 0, _, _, _ => none
  | fuel + 1, dynamic_image, target_width, target_height =>
    let resized := ops.resize dynamic_image target_width target_height
    match ops.write_to_png resized with
    | .error e => some (.error e)
    | .ok png_bytes =>
      if png_bytes.length < MAX_IMAGE_SIZE then some (.ok png_bytes)
      else resizeLoop ops fuel resized (shrinkDim target_width) (shrinkDim target_height)

/-- `resize_image` (lib.rs:128-199).  If the input is at most
`MAX_IMAGE_SIZE` bytes (`image_bytes.len() <= MAX_IMAGE_SIZE`,
lib.rs:136) it is returned unchanged; otherwise the bytes are decoded
(`image::load_from_memory`, lib.rs:166, propagating decode failure) and
the shrink loop runs.  `target_width`/`target_height` stand for the
f32-guessed initial dimensions of lib.rs:141-163; every theorem
quantifies over them, so no property below depends on the guess. -/
def resize_image {Img : Type} (ops : ImageOps Img) (fuel : Nat) (image_bytes : Bytes)
    (target_width target_height : Nat) : Option (Except String Bytes) :=
  if image_bytes.length ≤ MAX_IMAGE_SIZE then some (.ok image_bytes)
  else
    match ops.load_from_memory image_bytes with
    | .error e => some (.error e)
    | .ok dynamic_image => resizeLoop ops fuel dynamic_image target_width target_height

/-- A trivial image library over `Unit` images, used to instantiate
theorems at concrete inputs. -/
def unitImageOps : ImageOps Unit where
  load_from_memory := fun _ => .ok ()
  resize := fun _ _ _ => ()
  write_to_png := fun _ => .ok []

/-- An image library that fails to decode or encode anything: exercises
the claim that small inputs never reach the decoder. -/
def failingImageOps : ImageOps Unit where
  load_from_memory := fun _ => .error "decode failure"
  resize := fun _ _ _ => ()
  write_to_png := fun _ => .error "encode failure"

/-- `InputMediaPhoto` (lib.rs:219-224): the only field the program sets
to a per-post value is `media = InputFile::memory(post.clone())`; the
caption and parse-mode fields are all `None` and carry no information. -/
structure InputMediaPhoto where
  media : Bytes
deriving DecidableEq

/-- The Telegram call as an oracle: attempt number and the media group
handed to `bot.send_media_group` (lib.rs:235), returning the
acknowledged messages (abstracted to their ids) or an error message. -/
abbrev SendOracle := Nat → List InputMediaPhoto → Except String (List Nat)

/-- Observable actions of one `send_posts` call: a grouped-send request
(attempt number and the exact batch contents handed over), or a backoff
sleep of some duration.  The loop of lib.rs:231-255 contains no sleep
call, so `sleep` events never arise from the embedding — the constructor
exists so the absence of backoff is a provable statement. -/
inductive DispatchEvent where
  | send (attempt : Nat) (batch : List InputMediaPhoto)
  | sleep (seconds : Nat)
deriving DecidableEq

/-- The retry loop `for attempt in 0..10` of lib.rs:231-255: each
iteration overwrites `result` with the outcome of sending `images`
(always the same, never mutated); an error is logged and the loop
continues, a success breaks out.  `remaining` counts the iterations left
(10 at the call site); the accumulated event trace records each send. -/
def sendLoop (bot : SendOracle) (images : List InputMediaPhoto) :
    Nat → Nat → List DispatchEvent → Option (Except String (List Nat)) →
    List DispatchEvent × Option (Except String (List Nat))
  | _, 0, events, result => (events, result)
  | attempt, remaining + 1, events, _ =>
    match bot attempt images with
    | .error e =>
      sendLoop bot images (attempt + 1) remaining
        (events ++ [.send attempt images]) (some (.error e))
    | .ok msgs => (events ++ [.send attempt images], some (.ok msgs))

/-- `send_posts` (lib.rs:213-264): build one `InputMediaPhoto` per post,
run the retry loop, and return `Err` exactly when the final `result` is
an error (lib.rs:258-263).  Also returns the event trace. -/
def send_posts (bot : SendOracle) (posts : List Bytes) :
    List DispatchEvent × Except String Unit :=
  let images := posts.map (fun post => InputMediaPhoto.mk post)
  let out := sendLoop bot images 0 10 [] none
  (out.1,
    match out.2 with
    | some (.error e) => .error e
    | _ => .ok ())

/-- The batches handed to the messaging collaborator, in order, read off
an event trace. -/
def sentBatches (events : List DispatchEvent) : List (List InputMediaPhoto) :=
  events.filterMap fun e =>
    match e with
    | .send _ batch => some batch
    | .sleep _ => none

/-- The number of backoff sleeps an event trace contains. -/
def sleepCount (events : List DispatchEvent) : Nat :=
  (events.filter fun e =>
    match e with
    | .sleep _ => true
    | .send _ _ => false).length

/-- `posts.chunks(10)` (lib.rs:313): Rust's slice `chunks(n)` yields
consecutive sub-slices of length `n`, the last one possibly shorter;
it panics for `n == 0` (embedded as `[]`, unreachable at the call site
where `n = 10`). -/
def chunks {α : Type} : Nat → List α → List (List α)
  | _, [] => []
  | 0, _ :: _ => []
  | n + 1, x :: xs => (x :: xs).take (n + 1) :: chunks (n + 1) (xs.drop n)
termination_by _n l => l.length
decreasing_by simp [List.length_drop]; omega

/-- The `match result?` loop of lib.rs:301-307 over the joined download
results: `Ok` payloads are pushed onto `posts` in order, `Err` messages
are logged (collected here) and the post is dropped.  Join errors
(a download task panicking) are assumed absent. -/
def collectPosts : List (Except String Bytes) → List Bytes × List String
  | [] => ([], [])
  | .error e :: rest => ((collectPosts rest).1, e :: (collectPosts rest).2)
  | .ok post :: rest => (post :: (collectPosts rest).1, (collectPosts rest).2)

/-- The dispatch loop of lib.rs:313-317: each group is sent via
`send_posts`; a failure is only logged (collected here) and the loop
continues with the next group. -/
def dispatchGroups (send_group : List Bytes → Except String Unit) :
    List (List Bytes) → List String
  | [] => []
  | g :: gs =>
    match send_group g with
    | .error e => e :: dispatchGroups send_group gs
    | .ok _ => dispatchGroups send_group gs

/-- Observable trace of one `run` call: how many times the post fetch
was invoked, which per-post download errors were logged, whether the
date header message was sent, which groups were dispatched, and which
group errors were logged. -/
structure RunTrace where
  fetchCalls : Nat
  downloadErrors : List String
  headerSent : Bool
  dispatchedGroups : List (List Bytes)
  groupErrors : List String
deriving DecidableEq

/-- `run` (lib.rs:275-320), with its collaborators as oracles:
`get_konachan_popular` (called with the attempt number; the source calls
it exactly once, lib.rs:296, with `?` propagating its error), `download`
standing for `download_post` per fetched post, `send_message` for the
date-header send of lib.rs:310 (whose error `?` also propagates), and
`send_group` for `send_posts` per 10-post chunk (lib.rs:313-317, errors
only logged).  HTTP-client construction (lib.rs:285-287) and download
task panics are assumed to succeed; they carry no logic. -/
def run (get_konachan_popular : Nat → Except String (List Post))
    (download : Post → Except String Bytes) (send_message : Except String Unit)
    (send_group : List Bytes → Except String Unit) : RunTrace × Except String Unit :=
  match get_konachan_popular 0 with
  | .error e => (⟨1, [], false, [], []⟩, .error e)
  | .ok fetched =>
    let collected := collectPosts (fetched.map download)
    match send_message with
    | .error e => (⟨1, collected.2, false, [], []⟩, .error e)
    | .ok _ =>
      let groups := chunks 10 collected.1
      (⟨1, collected.2, true, groups, dispatchGroups send_group groups⟩, .ok ())

/-- `main` (main.rs:76-91): exit 1 when argument parsing fails, else the
exit status reflects `run`'s result (0 on `Ok`, 1 on `Err`). -/
def mainExitCode (parse : Except String Unit) (runResult : Except String Unit) : Nat :=
  match parse with
  | .error _ => 1
  | .ok _ =>
    match runResult with
    | .ok _ => 0
    | .error _ => 1

/-- The successful payloads of a list of download results, in order. -/
def okPosts (results : List (Except String Bytes)) : List Bytes :=
  results.filterMap fun r =>
    match r with
    | .ok post => some post
    | .error _ => none

/-- The error messages of a list of download results, in order. -/
def errorMessages (results : List (Except String Bytes)) : List String :=
  results.filterMap fun r =>
    match r with
    | .ok _ => none
    | .error e => some e

/-- A Telegram error message citing 1-based item 1 of the group, in the
platform's reporting style. -/
def evictionErrorMessage : String :=
  "Bad Request: failed to send message #1 with the error message WEBPAGE_CURL_FAILED"

/-- Simulated collaborator for the eviction scenario: fails attempt 0
citing item 1, succeeds on every later attempt. -/
def evictionBot : SendOracle := fun attempt _ =>
  if attempt = 0 then .error evictionErrorMessage else .ok [0]

/-- A two-item batch for the eviction scenario. -/
def evictionPosts : List Bytes := [[10], [20]]

/-- Simulated collaborator that always fails with no parseable index. -/
def alwaysFailBot : SendOracle := fun _ _ => .error "Bad Request: group send failed"

/-- A small batch for the retry-exhaustion scenario. -/
def retryPosts : List Bytes := [[1], [2]]

/-- Two fetched posts for run-level scenarios. -/
def samplePosts : List Post :=
  [⟨1, "https://konachan.com/a.jpg", 100, 100⟩,
   ⟨2, "https://konachan.com/b.jpg", 200, 200⟩]

/-- A fetch oracle that always succeeds with `samplePosts`. -/
def sampleFetch : Nat → Except String (List Post) := fun _ => .ok samplePosts

/-- A download oracle under which exactly post 1 fails. -/
def sampleDownload : Post → Except String Bytes := fun post =>
  if post.id = 1 then .error "Failed to download post" else .ok [9]

/-- A fetch oracle that fails only on its first attempt: a retry of two
or more attempts would succeed. -/
def transientFailFetch : Nat → Except String (List Post) := fun attempt =>
  if attempt = 0 then .error "error sending request" else .ok []

/-! ## Helper lemmas -/

/-- Whenever the shrink loop returns success, the returned PNG bytes
were accepted by the strict `png_bytes.len() < MAX_IMAGE_SIZE` test. -/
theorem resizeLoop_ok_length {Img : Type} (ops : ImageOps Img) :
    ∀ (fuel : Nat) (img : Img) (tw th : Nat) (out : Bytes),
      resizeLoop ops fuel img tw th = some (.ok out) →
      out.length < MAX_IMAGE_SIZE := by
  intro fuel
  induction fuel with
  | zero => intro img tw th out h; simp [resizeLoop] at h
  | succ n ih =>
    intro img tw th out h
    simp only [resizeLoop] at h
    split at h
    · simp at h
    · split at h
      · rename_i hlt
        obtain rfl : _ = out := by simpa using h
        exact hlt
      · exact ih _ _ _ _ h

/-- `shrinkDim` strictly decreases every positive dimension. -/
theorem shrinkDim_lt (w : Nat) (hw : 0 < w) : shrinkDim w < w := by
  unfold shrinkDim
  omega

/-- After at least `w` shrink steps a dimension starting at `w` has
reached 0 and stays there. -/
theorem shrinkDim_iterate_zero : ∀ (k w : Nat), w ≤ k → shrinkDim^[k] w = 0 := by
  intro k
  induction k with
  | zero =>
    intro w hw
    obtain rfl : w = 0 := by omega
    rfl
  | succ n ih =>
    intro w hw
    rw [Function.iterate_succ_apply]
    rcases Nat.eq_zero_or_pos w with rfl | hp
    · exact ih _ (by simp [shrinkDim])
    · exact ih _ (by have := shrinkDim_lt w hp; omega)

/-! ## Claim theorems: the image resizer -/

/-- C4 (amended): whenever `resize_image` succeeds, the returned byte
length is at most the 10 MiB ceiling; it is strictly below the ceiling
for every input except one of exactly `MAX_IMAGE_SIZE` bytes, which the
`len <= MAX_IMAGE_SIZE` early return of lib.rs:136 passes through
unchanged at exactly the ceiling. -/
theorem resize_image_le_ceiling {Img : Type} (ops : ImageOps Img) (fuel : Nat)
    (image_bytes : Bytes) (tw th : Nat) (out : Bytes)
    (h : resize_image ops fuel image_bytes tw th = some (.ok out)) :
    out.length ≤ MAX_IMAGE_SIZE ∧
      (image_bytes.length ≠ MAX_IMAGE_SIZE → out.length < MAX_IMAGE_SIZE) := by
  unfold resize_image at h
  split at h
  · rename_i hle
    obtain rfl : image_bytes = out := by simpa using h
    exact ⟨hle, fun _ => by omega⟩
  · split at h
    · simp at h
    · have hlt := resizeLoop_ok_length ops _ _ _ _ _ h
      exact ⟨Nat.le_of_lt hlt, fun _ => hlt⟩

/-- Witness for C4's theorem at the empty byte vector. -/
theorem resize_image_le_ceiling_witness :
    ([] : Bytes).length ≤ MAX_IMAGE_SIZE ∧
      (([] : Bytes).length ≠ MAX_IMAGE_SIZE → ([] : Bytes).length < MAX_IMAGE_SIZE) :=
  resize_image_le_ceiling unitImageOps 1 [] 0 0 [] rfl

/-- C4 counterexample: an input of exactly `MAX_IMAGE_SIZE` bytes is
returned successfully with length equal to the ceiling, not strictly
below it. -/
theorem resize_image_ceiling_counterexample :
    resize_image unitImageOps 1 (List.replicate MAX_IMAGE_SIZE 0) 0 0 =
      some (.ok (List.replicate MAX_IMAGE_SIZE 0)) ∧
    ¬ (List.replicate MAX_IMAGE_SIZE 0).length < MAX_IMAGE_SIZE := by
  constructor
  · unfold resize_image
    rw [if_pos (by simp)]
  · simp

/-- C5 (amended): each shrink iteration strictly decreases every
positive target dimension, but a dimension that has reached 0 stays 0
(no strict decrease there); consequently the dimension pair is constant
at (0,0) after at most max(width, height) iterations, and whenever the
shrink loop does return success its output is strictly under the
ceiling.  The loop has no iteration cap, so its termination depends on
the external encoder eventually producing under-ceiling bytes. -/
theorem shrink_loop_progress :
    (∀ w, 0 < w → shrinkDim w < w) ∧
    shrinkDim 0 = 0 ∧
    (∀ k w, w ≤ k → shrinkDim^[k] w = 0) ∧
    (∀ (Img : Type) (ops : ImageOps Img) (fuel : Nat) (img : Img) (tw th : Nat)
      (out : Bytes),
      resizeLoop ops fuel img tw th = some (.ok out) → out.length < MAX_IMAGE_SIZE) :=
  ⟨shrinkDim_lt, rfl, shrinkDim_iterate_zero,
    fun _ ops fuel img tw th out h => resizeLoop_ok_length ops fuel img tw th out h⟩

/-- C5 counterexample: dimension 0 is reachable (one step from 1) and
the shrink update does not strictly decrease it. -/
theorem shrink_zero_counterexample :
    shrinkDim 1 = 0 ∧ shrinkDim 0 = 0 ∧ ¬ shrinkDim 0 < 0 := by decide

/-- C9 (confirmed): an input already strictly under the ceiling is
returned byte-identical by `resize_image`, with no re-encoding, for
every image library behaviour, fuel and target dimensions. -/
theorem resize_image_fixed_point {Img : Type} (ops : ImageOps Img) (fuel tw th : Nat)
    (image_bytes : Bytes) (h : image_bytes.length < MAX_IMAGE_SIZE) :
    resize_image ops fuel image_bytes tw th = some (.ok image_bytes) := by
  unfold resize_image
  rw [if_pos (Nat.le_of_lt h)]

/-- Witness for C9's theorem at a concrete 3-byte input. -/
theorem resize_image_fixed_point_witness :
    resize_image unitImageOps 0 [1, 2, 3] 5 5 = some (.ok [1, 2, 3]) :=
  resize_image_fixed_point unitImageOps 0 5 5 [1, 2, 3] (by decide)

/-- C10 (confirmed): for every input of at most `MAX_IMAGE_SIZE` bytes,
`resize_image` returns `Ok` with the input unchanged for EVERY image
library behaviour — in particular for one whose decoder always fails —
so `image::load_from_memory` is never consulted and the `ImageError`
branch is unreachable for such inputs. -/
theorem resize_image_no_decode {Img : Type} (ops : ImageOps Img) (fuel tw th : Nat)
    (image_bytes : Bytes) (h : image_bytes.length ≤ MAX_IMAGE_SIZE) :
    resize_image ops fuel image_bytes tw th = some (.ok image_bytes) := by
  unfold resize_image
  rw [if_pos h]

/-- Witness for C10's theorem: a 1-byte non-image succeeds even under
an always-failing decoder. -/
theorem resize_image_no_decode_witness :
    resize_image failingImageOps 0 [255] 0 0 = some (.ok [255]) :=
  resize_image_no_decode failingImageOps 0 0 0 [255] (by decide)

/-! ## Claim theorems: the batch dispatcher -/

/-- Appending a send event appends its batch to the sent-batch list. -/
theorem sentBatches_append_send (events : List DispatchEvent) (a : Nat)
    (images : List InputMediaPhoto) :
    sentBatches (events ++ [.send a images]) = sentBatches events ++ [images] := by
  simp [sentBatches]

/-- Every batch the retry loop ever hands to the collaborator is the
`images` list it was started with: the loop never modifies the batch. -/
theorem sendLoop_batches (bot : SendOracle) (images : List InputMediaPhoto) :
    ∀ (remaining attempt : Nat) (events : List DispatchEvent)
      (res : Option (Except String (List Nat))),
      (∀ b ∈ sentBatches events, b = images) →
      ∀ b ∈ sentBatches (sendLoop bot images attempt remaining events res).1, b = images := by
  intro remaining
  induction remaining with
  | zero => intro attempt events res h; simpa [sendLoop] using h
  | succ n ih =>
    intro attempt events res h
    simp only [sendLoop]
    cases hbot : bot attempt images with
    | error e =>
      refine ih (attempt + 1) _ _ ?_
      intro b hb
      rw [sentBatches_append_send] at hb
      rcases List.mem_append.mp hb with hb | hb
      · exact h b hb
      · simpa using hb
    | ok msgs =>
      intro b hb
      simp only [sentBatches_append_send] at hb
      rcases List.mem_append.mp hb with hb | hb
      · exact h b hb
      · simpa using hb

/-- C1 (amended): the dispatcher never inspects the error message and
never evicts an item: every attempt, including the final successful one,
sends the original batch unchanged, so after a failure citing a valid
1-based item index followed by a success, the final successful batch
still contains the cited item, in the original order. -/
theorem send_posts_no_eviction (bot : SendOracle) (posts : List Bytes)
    (batch : List InputMediaPhoto)
    (hmem : batch ∈ sentBatches (send_posts bot posts).1) :
    batch = posts.map (fun post => InputMediaPhoto.mk post) := by
  refine sendLoop_batches bot _ 10 0 [] none ?_ batch hmem
  intro b hb
  simp [sentBatches] at hb

/-- Witness for C1's theorem: in the two-item eviction scenario the
batch sent on the successful attempt is the full original batch. -/
theorem send_posts_no_eviction_witness :
    [InputMediaPhoto.mk [10], InputMediaPhoto.mk [20]] =
      evictionPosts.map (fun post => InputMediaPhoto.mk post) :=
  send_posts_no_eviction evictionBot evictionPosts
    [InputMediaPhoto.mk [10], InputMediaPhoto.mk [20]] (by decide)

/-- C1 counterexample: the collaborator fails attempt 0 citing item 1
(`evictionErrorMessage`) and succeeds thereafter; the dispatch succeeds,
but the final batch sent is the whole original two-item batch, not the
batch with item 1 evicted. -/
theorem send_posts_eviction_counterexample :
    (send_posts evictionBot evictionPosts).2 = .ok () ∧
    (sentBatches (send_posts evictionBot evictionPosts).1).getLast? =
      some [InputMediaPhoto.mk [10], InputMediaPhoto.mk [20]] ∧
    (sentBatches (send_posts evictionBot evictionPosts).1).getLast? ≠
      some [InputMediaPhoto.mk [20]] := by
  refine ⟨?_, by decide, by decide⟩
  simp [send_posts, sendLoop, evictionBot, evictionPosts, evictionErrorMessage]

/-- C2 (amended): with a collaborator that fails every attempt, the
dispatcher makes exactly 10 attempts (numbered 0..9), performs no
backoff sleep at all between attempts, sends the batch unchanged every
time, and returns the error of the final (10th) attempt. -/
theorem send_posts_retry_budget (msg : Nat → String) (posts : List Bytes) :
    (send_posts (fun n _ => .error (msg n)) posts).1 =
      (List.range 10).map
        (fun n => DispatchEvent.send n (posts.map (fun post => InputMediaPhoto.mk post))) ∧
    sleepCount (send_posts (fun n _ => .error (msg n)) posts).1 = 0 ∧
    (send_posts (fun n _ => .error (msg n)) posts).2 = .error (msg 9) := by
  refine ⟨?_, ?_, rfl⟩ <;> rfl

/-- C2 counterexample: with an always-failing collaborator the loop
makes 10 send attempts, not the 5 the claim states, and performs 0
backoff sleeps, not 4. -/
theorem send_posts_retry_budget_counterexample :
    (sentBatches (send_posts alwaysFailBot retryPosts).1).length = 10 ∧
    (sentBatches (send_posts alwaysFailBot retryPosts).1).length ≠ 5 ∧
    sleepCount (send_posts alwaysFailBot retryPosts).1 = 0 ∧
    sleepCount (send_posts alwaysFailBot retryPosts).1 ≠ 4 := by
  refine ⟨by decide, by decide, by decide, by decide⟩

/-! ## Claim theorems: batch partitioning and the run orchestrator -/

/-- Concatenating the chunks of a positive chunk size restores the list. -/
theorem chunks_flatten {α : Type} : ∀ (n : Nat) (l : List α),
    (chunks (n + 1) l).flatten = l := by
  have key : ∀ (k : Nat) (n : Nat) (l : List α), l.length ≤ k →
      (chunks (n + 1) l).flatten = l := by
    intro k
    induction k with
    | zero =>
      intro n l hl
      obtain rfl : l = [] := List.length_eq_zero.mp (Nat.le_zero.mp hl)
      simp [chunks]
    | succ k ih =>
      intro n l hl
      match l with
      | [] => simp [chunks]
      | x :: xs =>
        simp only [List.length_cons] at hl
        rw [chunks]
        simp only [List.flatten_cons]
        rw [ih n (xs.drop n) (by simp only [List.length_drop]; omega)]
        rw [List.take_succ_cons, List.cons_append, List.take_append_drop]
  intro n l
  exact key l.length n l (Nat.le_refl _)

/-- Each chunk of size `n + 1` has at most `n + 1` elements. -/
theorem chunks_length_le {α : Type} : ∀ (n : Nat) (l : List α),
    ∀ g ∈ chunks (n + 1) l, g.length ≤ n + 1 := by
  have key : ∀ (k : Nat) (n : Nat) (l : List α), l.length ≤ k →
      ∀ g ∈ chunks (n + 1) l, g.length ≤ n + 1 := by
    intro k
    induction k with
    | zero =>
      intro n l hl
      obtain rfl : l = [] := List.length_eq_zero.mp (Nat.le_zero.mp hl)
      simp [chunks]
    | succ k ih =>
      intro n l hl g hg
      match l with
      | [] => simp [chunks] at hg
      | x :: xs =>
        simp only [List.length_cons] at hl
        rw [chunks] at hg
        rcases List.mem_cons.mp hg with rfl | hg
        · simp only [List.length_take]
          omega
        · exact ih n (xs.drop n) (by simp only [List.length_drop]; omega) g hg
  intro n l
  exact key l.length n l (Nat.le_refl _)

/-- The number of size-10 chunks is `⌈length / 10⌉ = (length + 9) / 10`. -/
theorem chunks_count_ten {α : Type} : ∀ (l : List α),
    (chunks 10 l).length = (l.length + 9) / 10 := by
  have key : ∀ (k : Nat) (l : List α), l.length ≤ k →
      (chunks 10 l).length = (l.length + 9) / 10 := by
    intro k
    induction k with
    | zero =>
      intro l hl
      obtain rfl : l = [] := List.length_eq_zero.mp (Nat.le_zero.mp hl)
      simp [chunks]
    | succ k ih =>
      intro l hl
      match l with
      | [] => simp [chunks]
      | x :: xs =>
        simp only [List.length_cons] at hl
        show (chunks (9 + 1) (x :: xs)).length = _
        rw [chunks]
        simp only [List.length_cons]
        rw [ih (xs.drop 9) (by simp only [List.length_drop]; omega)]
        simp only [List.length_drop]
        omega
  intro l
  exact key l.length l (Nat.le_refl _)

/-- C6 (confirmed): partitioning N deliverable items with
`posts.chunks(10)` yields exactly `⌈N / 10⌉` batches, every batch holds
at most 10 items, and concatenating the batches in dispatch order
restores the original selection order. -/
theorem chunks_partition (posts : List Bytes) :
    (chunks 10 posts).length = (posts.length + 9) / 10 ∧
    (∀ g ∈ chunks 10 posts, g.length ≤ 10) ∧
    (chunks 10 posts).flatten = posts :=
  ⟨chunks_count_ten posts, chunks_length_le 9 posts, chunks_flatten 9 posts⟩

/-- `collectPosts` keeps exactly the successful downloads, in order, and
logs exactly the failures, in order. -/
theorem collectPosts_eq (results : List (Except String Bytes)) :
    collectPosts results = (okPosts results, errorMessages results) := by
  induction results with
  | nil => rfl
  | cons r rest ih =>
    cases r with
    | error e => simp [collectPosts, okPosts, errorMessages, List.filterMap_cons, ih]
    | ok post => simp [collectPosts, okPosts, errorMessages, List.filterMap_cons, ih]

/-- C3 (amended): the run's result is success exactly when the post
fetch and the date-header send both succeed; a run error is always the
fetch's or the header send's error — never a batch-send or per-post
download failure, which are only logged — and the process exit status is
0 exactly when configuration parsing and the run both succeed. -/
theorem run_success_condition (fetch : Nat → Except String (List Post))
    (download : Post → Except String Bytes) (send_message : Except String Unit)
    (send_group : List Bytes → Except String Unit) :
    ((run fetch download send_message send_group).2 = .ok () ↔
      (∃ fetched, fetch 0 = .ok fetched) ∧ send_message = .ok ()) ∧
    (∀ e, (run fetch download send_message send_group).2 = .error e →
      fetch 0 = .error e ∨ send_message = .error e) ∧
    (∀ parse, mainExitCode parse (run fetch download send_message send_group).2 = 0 ↔
      parse = .ok () ∧ (run fetch download send_message send_group).2 = .ok ()) := by
  have hmain : ∀ (p r : Except String Unit), mainExitCode p r = 0 ↔ p = .ok () ∧ r = .ok () := by
    intro p r
    cases p with
    | error e => simp [mainExitCode]
    | ok u =>
      cases r with
      | error e => simp [mainExitCode]
      | ok v => simp [mainExitCode]
  refine ⟨?_, ?_, fun parse => hmain parse _⟩ <;>
    cases hf : fetch 0 with
  | error e =>
    cases hm : send_message with
    | error e2 => simp [run, hf, hm]
    | ok u => simp [run, hf, hm]
  | ok fetched =>
    cases hm : send_message with
    | error e2 => simp [run, hf, hm]
    | ok u => simp [run, hf, hm]

/-- C3 counterexample: the fetch succeeds (with an empty post list) and
every batch send succeeds, yet the run returns the date-header send's
error, so the process exits non-zero because of a failed message send. -/
theorem run_header_failure_counterexample :
    (fun (_ : Nat) => (Except.ok [] : Except String (List Post))) 0 = .ok [] ∧
    (run (fun _ => .ok []) (fun _ => .ok []) (.error "header send failed")
        (fun _ => .ok ())).2 = .error "header send failed" ∧
    mainExitCode (.ok ())
      (run (fun _ => .ok []) (fun _ => .ok []) (.error "header send failed")
        (fun _ => .ok ())).2 = 1 := by
  refine ⟨rfl, rfl, rfl⟩

/-- C7 (confirmed): a failing download or resize of one post is logged
(its message appears in the download-error log, in order) and only that
post is dropped; the surviving posts are all dispatched, in order, and
the run's overall result never depends on the download outcomes. -/
theorem post_failure_isolation (fetch : Nat → Except String (List Post))
    (download download' : Post → Except String Bytes)
    (send_message : Except String Unit) (send_group : List Bytes → Except String Unit)
    (fetched : List Post) (hfetch : fetch 0 = .ok fetched) :
    (run fetch download send_message send_group).1.downloadErrors =
      errorMessages (fetched.map download) ∧
    (run fetch download (.ok ()) send_group).1.dispatchedGroups.flatten =
      okPosts (fetched.map download) ∧
    (run fetch download send_message send_group).2 =
      (run fetch download' send_message send_group).2 := by
  refine ⟨?_, ?_, ?_⟩
  · cases hm : send_message with
    | error e => simp [run, hfetch, hm, collectPosts_eq]
    | ok u => simp [run, hfetch, hm, collectPosts_eq]
  · simp [run, hfetch, collectPosts_eq]
    exact chunks_flatten 9 _
  · cases hm : send_message with
    | error e => simp [run, hfetch, hm]
    | ok u => simp [run, hfetch, hm]

/-- Witness for C7's theorem: two fetched posts of which exactly the
first fails to download; the second is still batched and the run
succeeds. -/
theorem post_failure_isolation_witness :
    (run sampleFetch sampleDownload (.ok ()) (fun _ => .ok ())).1.downloadErrors =
      errorMessages (samplePosts.map sampleDownload) ∧
    (run sampleFetch sampleDownload (.ok ()) (fun _ => .ok ())).1.dispatchedGroups.flatten =
      okPosts (samplePosts.map sampleDownload) ∧
    (run sampleFetch sampleDownload (.ok ()) (fun _ => .ok ())).2 =
      (run sampleFetch (fun _ => .ok []) (.ok ()) (fun _ => .ok ())).2 :=
  post_failure_isolation sampleFetch sampleDownload (fun _ => .ok []) (.ok ())
    (fun _ => .ok ()) samplePosts rfl

/-- C8 (amended): the run performs exactly one fetch attempt — there is
no retry wrapper and no backoff — so a single fetch failure immediately
fails the whole run with that error. -/
theorem run_fetch_no_retry (fetch : Nat → Except String (List Post))
    (download : Post → Except String Bytes) (send_message : Except String Unit)
    (send_group : List Bytes → Except String Unit) :
    (run fetch download send_message send_group).1.fetchCalls = 1 ∧
    (∀ e, fetch 0 = .error e →
      (run fetch download send_message send_group).2 = .error e) := by
  constructor
  · cases hf : fetch 0 with
    | error e => simp [run, hf]
    | ok fetched =>
      cases hm : send_message with
      | error e => simp [run, hf, hm]
      | ok u => simp [run, hf, hm]
  · intro e he
    simp [run, he]

/-- C8 counterexample: a fetch oracle that fails only on attempt 0 (so
the claimed 5-attempt retry would succeed on its second attempt) still
fails the run with the first error, after exactly one fetch call. -/
theorem run_fetch_retry_counterexample :
    transientFailFetch 1 = .ok [] ∧
    (run transientFailFetch (fun _ => .ok []) (.ok ()) (fun _ => .ok ())).1.fetchCalls = 1 ∧
    (run transientFailFetch (fun _ => .ok []) (.ok ()) (fun _ => .ok ())).2 =
      .error "error sending request" := by
  refine ⟨rfl, rfl, rfl⟩

end KonachanPopular
